import Mathlib

/-!
Verification development for the streaming response pipeline of the chat
backend (`src/backend/src/api/blueprints/chat.py`,
`src/backend/src/services/streaming_service.py`,
`src/backend/src/services/chat_service.py`).

The development shallowly embeds:
* the Python values handed to `json.dumps` and the serializer itself
  (with CPython's default `ensure_ascii=True` escaping);
* the Event Encoder `SSEService.format_sse` and `SSEService.stream_error`;
* the Stream Coordinator `stream_chat_response` as a function from the
  behaviour of its two collaborators (the Generation Source and the
  Persistence Sink) to the trace of protocol events it yields together
  with the persistence calls it makes;
* the Delivery Bridge `stream_chat_response_sync` as the pump loop over the
  finite sequence of chunks the coordinator generator yields.
-/

namespace AetherAI

/-! ## Python values (the payloads handed to `json.dumps`)

`PyVal.obj` stands for any Python object that `json.dumps` cannot
serialize (a set, a custom class instance, ...): with the default
arguments used in `streaming_service.py`, `json.dumps` raises `TypeError`
on such a value. The mutual list/dict types make structural recursion and
induction over nested values direct. -/

mutual

inductive PyVal where
  | none : PyVal
  | bool (b : Bool) : PyVal
  | int (n : Int) : PyVal
  | str (s : String) : PyVal
  | list (xs : PyList) : PyVal
  | dict (kvs : PyDict) : PyVal
  | obj : PyVal

inductive PyList where
  | nil : PyList
  | cons (hd : PyVal) (tl : PyList) : PyList

inductive PyDict where
  | nil : PyDict
  | cons (k : String) (v : PyVal) (tl : PyDict) : PyDict

end

/-! A value is JSON-serializable when it contains no `PyVal.obj`. -/

mutual

def PyVal.serializable : PyVal → Bool
  | .none => true
  | .bool _ => true
  | .int _ => true
  | .str _ => true
  | .list xs => xs.serializable
  | .dict kvs => kvs.serializable
  | .obj => false

def PyList.serializable : PyList → Bool
  | .nil => true
  | .cons hd tl => hd.serializable && tl.serializable

def PyDict.serializable : PyDict → Bool
  | .nil => true
  | .cons _ v tl => v.serializable && tl.serializable

end

/-! ## Decimal rendering of integers (Python `repr` of `int`) -/

/-- Hexadecimal / decimal digit characters. -/
def digitChar (n : Nat) : Char :=
  match n with
  | 0 => '0' | 1 => '1' | 2 => '2' | 3 => '3' | 4 => '4'
  | 5 => '5' | 6 => '6' | 7 => '7' | 8 => '8' | 9 => '9'
  | 10 => 'a' | 11 => 'b' | 12 => 'c' | 13 => 'd' | 14 => 'e'
  | _ => 'f'

/-- Big-endian decimal digits of `n`, empty for `0`; `fuel` bounds the
recursion (callers pass `n` itself, which suffices since `n / 10 < n`). -/
def natDigitsAux : Nat → Nat → List Char
  | 0, _ => []
  | fuel + 1, n =>
    if n = 0 then [] else natDigitsAux fuel (n / 10) ++ [digitChar (n % 10)]

/-- Decimal rendering of a natural number. -/
def natRepr (n : Nat) : String :=
  if n = 0 then "0" else String.mk (natDigitsAux n n)

/-- Decimal rendering of a Python integer. -/
def intRepr : Int → String
  | .ofNat n => natRepr n
  | .negSucc n => "-" ++ natRepr (n + 1)

/-! ## JSON string escaping (CPython `ensure_ascii=True`) -/

/-- Four lowercase hex digits of `n % 0x10000`. -/
def hex4 (n : Nat) : String :=
  String.mk [digitChar (n / 4096 % 16), digitChar (n / 256 % 16),
             digitChar (n / 16 % 16), digitChar (n % 16)]

/-- The `\uXXXX` escape of a code point, a surrogate pair above `0xFFFF`. -/
def uEscape (n : Nat) : String :=
  if n < 0x10000 then "\\u" ++ hex4 n
  else
    let m := n - 0x10000
    "\\u" ++ hex4 (0xD800 + m / 0x400) ++ "\\u" ++ hex4 (0xDC00 + m % 0x400)

/-- How CPython's `json.dumps` (default `ensure_ascii=True`) escapes one
character inside a string literal. -/
def escapeChar (c : Char) : String :=
  if c = '"' then "\\\""
  else if c = '\\' then "\\\\"
  else if c = '\n' then "\\n"
  else if c = '\r' then "\\r"
  else if c = '\t' then "\\t"
  else if c = '\x08' then "\\b"
  else if c = '\x0c' then "\\f"
  else if c.toNat < 0x20 || 0x7e < c.toNat then uEscape c.toNat
  else String.singleton c

/-- Escape every character of a list in order. -/
def escapeList : List Char → String
  | [] => ""
  | c :: cs => escapeChar c ++ escapeList cs

/-- JSON string literal body for `s`. -/
def escapeString (s : String) : String := escapeList s.data

/-- Separator-joined concatenation, as Python's `sep.join(parts)` /
the item separators `", "` and `": "` used by `json.dumps`. -/
def joinSep (sep : String) : List String → String
  | [] => ""
  | [s] => s
  | s :: rest => s ++ sep ++ joinSep sep rest

/-! ## `json.dumps`

Models CPython `json.dumps` with default arguments on the embedded value
space: `null` / `true` / `false` / decimal integers / escaped string
literals / `[e1, e2]` / `{"k": v}` with separators `", "` and `": "`.
A non-serializable object raises `TypeError`, modelled as `Except.error`. -/

mutual

def json_dumps : PyVal → Except String String
  | .none => .ok "null"
  | .bool true => .ok "true"
  | .bool false => .ok "false"
  | .int n => .ok (intRepr n)
  | .str s => .ok ("\"" ++ escapeString s ++ "\"")
  | .list xs => do
    let parts ← json_dumps_list xs
    pure ("[" ++ joinSep ", " parts ++ "]")
  | .dict kvs => do
    let parts ← json_dumps_dict kvs
    pure ("\x7b" ++ joinSep ", " parts ++ "\x7d")
  | .obj => .error "Object of type object is not JSON serializable"

def json_dumps_list : PyList → Except String (List String)
  | .nil => .ok []
  | .cons hd tl => do
    let s ← json_dumps hd
    let rest ← json_dumps_list tl
    pure (s :: rest)

def json_dumps_dict : PyDict → Except String (List String)
  | .nil => .ok []
  | .cons k v tl => do
    let s ← json_dumps v
    let rest ← json_dumps_dict tl
    pure (("\"" ++ escapeString k ++ "\": " ++ s) :: rest)

end

/-! ## Event Encoder (`streaming_service.py`) -/

namespace SSEService

/-- `SSEService.format_sse(data, event)`:
`"\n".join([f"event: {event}", f"data: {json.dumps(data)}", ""]) + "\n"`.
The `json.dumps` call may raise, which propagates out of `format_sse`. -/
def format_sse (data : PyVal) (event : String) : Except String String := do
  let j ← json_dumps data
  pure ("event: " ++ event ++ "\n" ++ "data: " ++ j ++ "\n" ++ "\n")

/-- `SSEService.stream_error(error_message, error_code)`; the Python
default for `error_code` is `"internal_error"`. -/
def stream_error (error_message : String) (error_code : String) :
    Except String String :=
  format_sse
    (PyVal.dict (.cons "type" (.str "error")
      (.cons "error" (.str error_message)
        (.cons "code" (.str error_code) .nil))))
    "error"

end SSEService

/-! ## Stream Coordinator (`chat.py`, `stream_chat_response`)

The coordinator is an async generator. Its collaborators are embedded by
their observable behaviour on one request:

* the Generation Source (`llm_service.stream_chat`) yields a finite list
  of text fragments and then either exhausts normally
  (`failure = Option.none`) or raises an exception whose description is
  `failure = some msg`;
* the Persistence Sink (`ChatService.add_message`) either returns
  normally (`persistFail = Option.none`) or raises an exception with
  description `persistFail = some msg`.

The embedding records the protocol events yielded (in order) and the
arguments of every `add_message` invocation. It does not track whether an
invocation durably committed: `add_message` runs `db.commit()`
(`chat_service.py` line 152) and then `db.refresh(message)` (line 153),
so a raise may happen either before or after the durable commit, and the
raise/commit split is not a function of the exception alone. -/

/-- Observable behaviour of the Generation Source on one request. -/
structure SourceResult where
  tokens : List String
  failure : Option String

/-- One protocol event, the payload of one `format_sse` call made by the
coordinator (`message-start` / `text-delta` / `message-finish` on channel
`"message"`, `error` on channel `"error"`). -/
inductive StreamEvent where
  | messageStart (id : String) (chat_id : String) : StreamEvent
  | textDelta (content : String) : StreamEvent
  | messageFinish (id : String) : StreamEvent
  | error (message : String) (code : String) : StreamEvent
deriving DecidableEq, Repr

/-- The JSON payload the coordinator passes to `format_sse` for an event. -/
def eventPayload : StreamEvent → PyVal
  | .messageStart i c =>
    .dict (.cons "type" (.str "message-start")
      (.cons "id" (.str i) (.cons "chat_id" (.str c) .nil)))
  | .textDelta t =>
    .dict (.cons "type" (.str "text-delta") (.cons "content" (.str t) .nil))
  | .messageFinish i =>
    .dict (.cons "type" (.str "message-finish") (.cons "id" (.str i) .nil))
  | .error m c =>
    .dict (.cons "type" (.str "error")
      (.cons "error" (.str m) (.cons "code" (.str c) .nil)))

/-- The SSE channel label the coordinator passes to `format_sse`. -/
def eventChannel : StreamEvent → String
  | .error _ _ => "error"
  | _ => "message"

/-- The `parts` argument built at `chat.py` line 69:
`[{"type": "text", "text": full_response}]` has this single element. -/
def textPart (s : String) : PyVal :=
  .dict (.cons "type" (.str "text") (.cons "text" (.str s) .nil))

/-- One invocation of `ChatService.add_message` with its arguments. -/
structure PersistCall where
  chat_id : String
  role : String
  parts : List PyVal
  attachments : List PyVal

/-- Everything observable about one run of the coordinator generator when
the consumer drains it: the events yielded and the `add_message`
invocations made (whether or not each one raised). -/
structure StreamRun where
  events : List StreamEvent
  persistCalls : List PersistCall

/-- The token loop of `stream_chat_response` (`chat.py` lines 58-62):
for each token, `full_response += token` then yield a `text-delta` event.
Returns the events of the loop and the final accumulator. -/
def streamDeltas : List String → String → List StreamEvent × String
  | [], acc => ([], acc)
  | t :: ts, acc =>
    let rest := streamDeltas ts (acc ++ t)
    (StreamEvent.textDelta t :: rest.1, rest.2)

/-- `stream_chat_response` (`chat.py` lines 24-81) with a fresh assistant
message id `msgId`: yield `message-start`; loop over the source's tokens
accumulating `full_response` and yielding `text-delta`s; if the source
raised, the `except` clause yields one `error` event with the exception's
description and code `"internal_error"`; otherwise call
`ChatService.add_message(db, chat_id, role="assistant",
parts=[{"type":"text","text":full_response}], attachments=[])` and then
yield `message-finish` — unless `add_message` raised, in which case the
same `except` clause yields the `error` event instead (the raise may
fall before or after `add_message`'s internal commit; the embedding
records only that the invocation was made and raised). -/
def stream_chat_response (msgId chatId : String) (src : SourceResult)
    (persistFail : Option String) : StreamRun :=
  let start := StreamEvent.messageStart msgId chatId
  let loop := streamDeltas src.tokens ""
  let deltaEvs := loop.1
  let full_response := loop.2
  match src.failure with
  | some m =>
    { events := start :: deltaEvs ++ [StreamEvent.error m "internal_error"]
      persistCalls := [] }
  | Option.none =>
    let call : PersistCall :=
      { chat_id := chatId, role := "assistant"
        parts := [textPart full_response], attachments := [] }
    match persistFail with
    | some m =>
      { events := start :: deltaEvs ++ [StreamEvent.error m "internal_error"]
        persistCalls := [call] }
    | Option.none =>
      { events := start :: deltaEvs ++ [StreamEvent.messageFinish msgId]
        persistCalls := [call] }

/-- An event is terminal when it is `message-finish` or `error`. -/
def isTerminal : StreamEvent → Bool
  | .messageFinish _ => true
  | .error _ _ => true
  | _ => false

/-- Recognize an `error` event. -/
def isErrorEvent : StreamEvent → Bool
  | .error _ _ => true
  | _ => false

/-- Recognize a `message-finish` event. -/
def isFinishEvent : StreamEvent → Bool
  | .messageFinish _ => true
  | _ => false

/-- The `content` fields of the `text-delta` events of a trace, in order. -/
def deltaContents : List StreamEvent → List String
  | [] => []
  | StreamEvent.textDelta c :: rest => c :: deltaContents rest
  | _ :: rest => deltaContents rest

/-- Left-to-right concatenation of fragments, as the repeated
`full_response += token` of the coordinator loop. -/
def concatAll : List String → String
  | [] => ""
  | t :: ts => t ++ concatAll ts

/-! ## Delivery Bridge (`chat.py`, `stream_chat_response_sync`)

The bridge creates a private event loop and repeatedly runs
`async_gen.__anext__()` to completion, yielding each chunk it obtains,
until the async generator signals `StopAsyncIteration`. On the finite
sequence of chunks the coordinator generator yields, one
`run_until_complete(__anext__())` returns exactly the next chunk, so the
pump loop is this recursion. -/
def stream_chat_response_sync : List String → List String
  | [] => []
  | chunk :: rest => chunk :: stream_chat_response_sync rest

/-! ## Trace lemmas -/

theorem streamDeltas_eq (ts : List String) (acc : String) :
    streamDeltas ts acc = (ts.map StreamEvent.textDelta, acc ++ concatAll ts) := by
  induction ts generalizing acc with
  | nil => simp [streamDeltas, concatAll]
  | cons t ts ih =>
    simp [streamDeltas, concatAll, ih, String.append_assoc]

/-- Normal form of a run whose Generation Source raised. -/
theorem run_source_failure (msgId chatId : String) (src : SourceResult)
    (pf : Option String) (m : String) (h : src.failure = some m) :
    stream_chat_response msgId chatId src pf =
      { events := StreamEvent.messageStart msgId chatId ::
          src.tokens.map StreamEvent.textDelta ++
          [StreamEvent.error m "internal_error"]
        persistCalls := [] } := by
  simp [stream_chat_response, h, streamDeltas_eq]

/-- Normal form of a run whose source exhausted and whose persistence
call returned normally. -/
theorem run_success (msgId chatId : String) (src : SourceResult)
    (h : src.failure = Option.none) :
    stream_chat_response msgId chatId src Option.none =
      { events := StreamEvent.messageStart msgId chatId ::
          src.tokens.map StreamEvent.textDelta ++
          [StreamEvent.messageFinish msgId]
        persistCalls := [{ chat_id := chatId, role := "assistant"
                           parts := [textPart (concatAll src.tokens)]
                           attachments := [] }] } := by
  simp [stream_chat_response, h, streamDeltas_eq]

/-- Normal form of a run whose source exhausted but whose persistence
call raised. -/
theorem run_persist_failure (msgId chatId : String) (src : SourceResult)
    (m : String) (h : src.failure = Option.none) :
    stream_chat_response msgId chatId src (some m) =
      { events := StreamEvent.messageStart msgId chatId ::
          src.tokens.map StreamEvent.textDelta ++
          [StreamEvent.error m "internal_error"]
        persistCalls := [{ chat_id := chatId, role := "assistant"
                           parts := [textPart (concatAll src.tokens)]
                           attachments := [] }] } := by
  simp [stream_chat_response, h, streamDeltas_eq]

theorem deltas_not_terminal (ts : List String) :
    (ts.map StreamEvent.textDelta).all (fun e => !isTerminal e) = true := by
  induction ts with
  | nil => rfl
  | cons t ts ih => simp [isTerminal]

theorem deltaContents_map (ts : List String) :
    deltaContents (ts.map StreamEvent.textDelta) = ts := by
  induction ts with
  | nil => rfl
  | cons t ts ih => simp [deltaContents, ih]

theorem deltaContents_append (a b : List StreamEvent) :
    deltaContents (a ++ b) = deltaContents a ++ deltaContents b := by
  induction a with
  | nil => rfl
  | cons x a ih => cases x <;> simp [deltaContents, ih]

/-- The delta contents of a full trace are exactly the source's tokens,
whenever the trace's last event is not itself a delta. -/
theorem deltaContents_trace (msgId chatId : String) (ts : List String)
    (last : StreamEvent)
    (h : (match last with | StreamEvent.textDelta _ => false | _ => true) = true) :
    deltaContents (StreamEvent.messageStart msgId chatId ::
      ts.map StreamEvent.textDelta ++ [last]) = ts := by
  show deltaContents ([StreamEvent.messageStart msgId chatId] ++
    (ts.map StreamEvent.textDelta ++ [last])) = ts
  rw [deltaContents_append, deltaContents_append, deltaContents_map]
  cases last with
  | textDelta c => exact Bool.noConfusion h
  | messageStart i c => simp [deltaContents]
  | messageFinish i => simp [deltaContents]
  | error m c => simp [deltaContents]

theorem finish_not_in_deltas (ts : List String) (j : String) :
    StreamEvent.messageFinish j ∉ ts.map StreamEvent.textDelta := by
  simp

theorem filter_error_deltas (ts : List String) :
    (ts.map StreamEvent.textDelta).filter isErrorEvent = [] := by
  induction ts with
  | nil => rfl
  | cons t ts ih => simp [isErrorEvent]

/-! ## Claims -/

/-- C1: on the success path (the Generation Source exhausts without
failure), whatever the Persistence Sink then does, `add_message` is
invoked exactly once, with role `"assistant"`, an empty attachment list,
and a single text part whose text is the concatenation, in emission
order, of the `content` fields of all `text-delta` events of the trace;
a zero-fragment generation hands over the empty string. -/
theorem success_persists_delta_concatenation (msgId chatId : String)
    (src : SourceResult) (pf : Option String)
    (h : src.failure = Option.none) :
    (stream_chat_response msgId chatId src pf).persistCalls =
      [{ chat_id := chatId, role := "assistant"
         parts := [textPart (concatAll
           (deltaContents (stream_chat_response msgId chatId src pf).events))]
         attachments := [] }] := by
  cases pf with
  | none =>
    rw [run_success msgId chatId src h]
    rw [deltaContents_trace msgId chatId src.tokens _ rfl]
  | some m =>
    rw [run_persist_failure msgId chatId src m h]
    rw [deltaContents_trace msgId chatId src.tokens _ rfl]

/-- Witness for C1: the zero-fragment success run persists the empty
string with role assistant and no attachments. -/
theorem success_persists_delta_concatenation_witness :
    (stream_chat_response "m0" "c0" ⟨[], Option.none⟩ Option.none).persistCalls =
      [{ chat_id := "c0", role := "assistant"
         parts := [textPart ""], attachments := [] }] :=
  success_persists_delta_concatenation "m0" "c0" ⟨[], Option.none⟩ Option.none rfl

/-- C2: every drained run of the coordinator, whatever the source yields
or raises and whatever the sink does, ends in exactly one terminal event
(`message-finish` or `error`) and every earlier event is non-terminal. -/
theorem single_terminal_event (msgId chatId : String) (src : SourceResult)
    (pf : Option String) :
    ∃ l t, (stream_chat_response msgId chatId src pf).events = l ++ [t] ∧
      isTerminal t = true ∧ l.all (fun e => !isTerminal e) = true := by
  rcases hsrc : src.failure with _ | m
  · cases pf with
    | none =>
      refine ⟨StreamEvent.messageStart msgId chatId ::
        src.tokens.map StreamEvent.textDelta, StreamEvent.messageFinish msgId,
        ?_, rfl, ?_⟩
      · rw [run_success msgId chatId src hsrc]
      · simp [isTerminal]
    | some m =>
      refine ⟨StreamEvent.messageStart msgId chatId ::
        src.tokens.map StreamEvent.textDelta,
        StreamEvent.error m "internal_error", ?_, rfl, ?_⟩
      · rw [run_persist_failure msgId chatId src m hsrc]
      · simp [isTerminal]
  · refine ⟨StreamEvent.messageStart msgId chatId ::
      src.tokens.map StreamEvent.textDelta,
      StreamEvent.error m "internal_error", ?_, rfl, ?_⟩
    · rw [run_source_failure msgId chatId src pf m hsrc]
    · simp [isTerminal]

/-- C5: the first event of every run is `message-start`; and a source
that raises before producing any fragment yields exactly
`message-start` then `error`, with no delta in between. -/
theorem start_is_first (msgId chatId : String) (src : SourceResult)
    (pf : Option String) :
    (stream_chat_response msgId chatId src pf).events.head? =
      some (StreamEvent.messageStart msgId chatId) ∧
    (src.tokens = [] → ∀ m, src.failure = some m →
      (stream_chat_response msgId chatId src pf).events =
        [StreamEvent.messageStart msgId chatId,
         StreamEvent.error m "internal_error"]) := by
  constructor
  · rcases hsrc : src.failure with _ | m
    · cases pf with
      | none => rw [run_success msgId chatId src hsrc]; rfl
      | some m => rw [run_persist_failure msgId chatId src m hsrc]; rfl
    · rw [run_source_failure msgId chatId src pf m hsrc]; rfl
  · intro ht m hm
    rw [run_source_failure msgId chatId src pf m hm, ht]
    rfl

/-- Witness for C5: a source that raises `"boom"` before any fragment
yields exactly start-then-error. -/
theorem start_is_first_witness :
    (stream_chat_response "m0" "c0" ⟨[], some "boom"⟩ Option.none).events =
      [StreamEvent.messageStart "m0" "c0",
       StreamEvent.error "boom" "internal_error"] :=
  (start_is_first "m0" "c0" ⟨[], some "boom"⟩ Option.none).2 rfl "boom" rfl

/-- C6: the Delivery Bridge pump loop yields exactly the chunks of the
coordinator generator, in order, with nothing duplicated, dropped or
reordered. -/
theorem bridge_preserves_chunks (units : List String) :
    stream_chat_response_sync units = units := by
  induction units with
  | nil => rfl
  | cons u rest ih => simpa [stream_chat_response_sync] using ih

/-- C8: a Generation Source failure with description `m` — before or
after any number of fragments — is converted into exactly one `error`
event, carrying `m` and the single generic code `"internal_error"`, as
the trace's last event; the coordinator's trace is total (the exception
does not escape). -/
theorem source_failure_single_error (msgId chatId : String)
    (src : SourceResult) (pf : Option String) (m : String)
    (h : src.failure = some m) :
    (stream_chat_response msgId chatId src pf).events =
      StreamEvent.messageStart msgId chatId ::
        src.tokens.map StreamEvent.textDelta ++
        [StreamEvent.error m "internal_error"] ∧
    (stream_chat_response msgId chatId src pf).events.filter isErrorEvent =
      [StreamEvent.error m "internal_error"] := by
  rw [run_source_failure msgId chatId src pf m h]
  refine ⟨rfl, ?_⟩
  simp [List.filter_append, filter_error_deltas src.tokens, isErrorEvent]

/-- Witness for C8: a source that yields `"Par"` then raises
`"timeout"` produces start, one delta, then the single error event. -/
theorem source_failure_single_error_witness :
    (stream_chat_response "m0" "c0" ⟨["Par"], some "timeout"⟩ Option.none).events =
      StreamEvent.messageStart "m0" "c0" ::
        ["Par"].map StreamEvent.textDelta ++
        [StreamEvent.error "timeout" "internal_error"] ∧
    (stream_chat_response "m0" "c0" ⟨["Par"], some "timeout"⟩
        Option.none).events.filter isErrorEvent =
      [StreamEvent.error "timeout" "internal_error"] :=
  source_failure_single_error "m0" "c0" ⟨["Par"], some "timeout"⟩
    Option.none "timeout" rfl

/-- C10: within one run, any `message-finish` event carries the same id
as any `message-start` event — both are the single fresh assistant
message id generated at stream start. -/
theorem finish_id_eq_start_id (msgId chatId : String) (src : SourceResult)
    (pf : Option String) (i c j : String)
    (hs : StreamEvent.messageStart i c ∈
      (stream_chat_response msgId chatId src pf).events)
    (hf : StreamEvent.messageFinish j ∈
      (stream_chat_response msgId chatId src pf).events) :
    i = j := by
  rcases hsrc : src.failure with _ | m
  · cases pf with
    | none =>
      rw [run_success msgId chatId src hsrc] at hs hf
      simp at hs hf
      rw [hs.1, hf]
    | some m =>
      rw [run_persist_failure msgId chatId src m hsrc] at hf
      simp at hf
  · rw [run_source_failure msgId chatId src pf m hsrc] at hf
    simp at hf

/-- Witness for C10: the success run on one fragment contains both a
`message-start` and a `message-finish`, and their ids agree. -/
theorem finish_id_eq_start_id_witness :
    StreamEvent.messageStart "m1" "c1" ∈
      (stream_chat_response "m1" "c1" ⟨["Hel"], Option.none⟩
        Option.none).events ∧
    StreamEvent.messageFinish "m1" ∈
      (stream_chat_response "m1" "c1" ⟨["Hel"], Option.none⟩
        Option.none).events ∧
    ("m1" : String) = "m1" :=
  ⟨by decide, by decide,
    finish_id_eq_start_id "m1" "c1" ⟨["Hel"], Option.none⟩ Option.none
      "m1" "c1" "m1" (by decide) (by decide)⟩

/-- C3 counterexample: the claim "if an error event is emitted, the
Persistence Sink is never invoked for that stream" fails when the sink
itself raises. With source tokens `["Par"]` exhausting normally and
`add_message` raising `"db down"`, the run emits an `error` event and
yet the sink was invoked (once). -/
theorem error_event_with_sink_invoked :
    StreamEvent.error "db down" "internal_error" ∈
      (stream_chat_response "m1" "c1" ⟨["Par"], Option.none⟩
        (some "db down")).events ∧
    (stream_chat_response "m1" "c1" ⟨["Par"], Option.none⟩
        (some "db down")).persistCalls.length = 1 := by
  exact ⟨by decide, rfl⟩

/-- C3 (amended): for every stream in which an error event is emitted,
either the Persistence Sink was never invoked for that stream (the
Generation Source failed, and the partial accumulated text is dropped),
or the single sink invocation itself raised, and the emitted error's
description is precisely that exception's description. Whether a raising
invocation had already durably committed is not decided by the
coordinator: `add_message` raises either before or after its internal
`db.commit()`. -/
theorem error_event_sink_raised_or_uninvoked (msgId chatId : String)
    (src : SourceResult) (pf : Option String) (m c : String)
    (h : StreamEvent.error m c ∈
      (stream_chat_response msgId chatId src pf).events) :
    (stream_chat_response msgId chatId src pf).persistCalls = [] ∨
    ((stream_chat_response msgId chatId src pf).persistCalls.length = 1 ∧
      pf = some m) := by
  rcases hsrc : src.failure with _ | m'
  · cases pf with
    | none =>
      rw [run_success msgId chatId src hsrc] at h
      simp at h
    | some mp =>
      rw [run_persist_failure msgId chatId src mp hsrc] at h ⊢
      simp at h
      refine Or.inr ⟨rfl, ?_⟩
      rw [h.1]
  · rw [run_source_failure msgId chatId src pf m' hsrc]
    exact Or.inl rfl

/-- Witness for the amended C3: with the sink raising `"db down"`, the
error event is emitted, the sink was invoked exactly once and the
emitted description is the sink exception's. -/
theorem error_event_sink_raised_or_uninvoked_witness :
    (stream_chat_response "m1" "c1" ⟨["Par"], Option.none⟩
        (some "db down")).persistCalls = [] ∨
    ((stream_chat_response "m1" "c1" ⟨["Par"], Option.none⟩
        (some "db down")).persistCalls.length = 1 ∧
      (some "db down" : Option String) = some "db down") :=
  error_event_sink_raised_or_uninvoked "m1" "c1" ⟨["Par"], Option.none⟩
    (some "db down") "db down" "internal_error" (by decide)

/-- C4 counterexample: the claim "the Coordinator emits MessageFinish
and then invokes the Persistence Sink, so a failure of the durable
write is not surfaced in the stream" fails. With source `["Hel","lo"]`
exhausting normally and `add_message` raising `"disk full"`, the
emitted trace ends in an `error` event and contains no `message-finish`
at all: the durable-write failure is surfaced and the client never
observes a successful finish. -/
theorem persist_failure_surfaced_no_finish :
    (stream_chat_response "m1" "c1" ⟨["Hel", "lo"], Option.none⟩
        (some "disk full")).events =
      [StreamEvent.messageStart "m1" "c1", StreamEvent.textDelta "Hel",
       StreamEvent.textDelta "lo",
       StreamEvent.error "disk full" "internal_error"] ∧
    (stream_chat_response "m1" "c1" ⟨["Hel", "lo"], Option.none⟩
        (some "disk full")).events.all (fun e => !isFinishEvent e) = true := by
  exact ⟨by decide, by decide⟩

/-- C4 (amended): on the success path the Coordinator invokes the
Persistence Sink before emitting `message-finish`. The sink is invoked
with identical arguments whether or not the durable write fails; when
it succeeds the trace ends with `message-finish`, and when it raises
the failure is surfaced in the stream — the trace ends with an `error`
event instead and `message-finish` is never delivered. -/
theorem sink_invoked_before_finish (msgId chatId : String)
    (src : SourceResult) (m : String) (h : src.failure = Option.none) :
    (stream_chat_response msgId chatId src Option.none).events =
      StreamEvent.messageStart msgId chatId ::
        src.tokens.map StreamEvent.textDelta ++
        [StreamEvent.messageFinish msgId] ∧
    (stream_chat_response msgId chatId src (some m)).events =
      StreamEvent.messageStart msgId chatId ::
        src.tokens.map StreamEvent.textDelta ++
        [StreamEvent.error m "internal_error"] ∧
    (stream_chat_response msgId chatId src (some m)).persistCalls =
      (stream_chat_response msgId chatId src Option.none).persistCalls := by
  rw [run_success msgId chatId src h, run_persist_failure msgId chatId src m h]
  exact ⟨rfl, rfl, rfl⟩

/-- Witness for the amended C4 at source `["Hel", "lo"]` and a durable
write failing with `"disk full"`. -/
theorem sink_invoked_before_finish_witness :
    (stream_chat_response "m1" "c1" ⟨["Hel", "lo"], Option.none⟩
        Option.none).events =
      StreamEvent.messageStart "m1" "c1" ::
        ["Hel", "lo"].map StreamEvent.textDelta ++
        [StreamEvent.messageFinish "m1"] ∧
    (stream_chat_response "m1" "c1" ⟨["Hel", "lo"], Option.none⟩
        (some "disk full")).events =
      StreamEvent.messageStart "m1" "c1" ::
        ["Hel", "lo"].map StreamEvent.textDelta ++
        [StreamEvent.error "disk full" "internal_error"] ∧
    (stream_chat_response "m1" "c1" ⟨["Hel", "lo"], Option.none⟩
        (some "disk full")).persistCalls =
      (stream_chat_response "m1" "c1" ⟨["Hel", "lo"], Option.none⟩
        Option.none).persistCalls :=
  sink_invoked_before_finish "m1" "c1" ⟨["Hel", "lo"], Option.none⟩
    "disk full" rfl

/-! ## Encoder lemmas: serialized JSON is a single line

With `ensure_ascii=True`, every character `json.dumps` writes into the
`data:` line is either a kept printable ASCII character (so not a
newline) or part of an escape sequence built from backslashes, letters
and hex digits. Hence the frame's only newlines are the three structural
ones, and the frame is self-terminating. -/

theorem nlFree_append (a b : String) (ha : '\n' ∉ a.data)
    (hb : '\n' ∉ b.data) : '\n' ∉ (a ++ b).data := by
  rw [String.data_append]
  intro hmem
  rcases List.mem_append.1 hmem with h | h
  · exact ha h
  · exact hb h

theorem digitChar_ne_newline (n : Nat) : digitChar n ≠ '\n' := by
  unfold digitChar
  split <;> decide

theorem natDigitsAux_no_newline (fuel : Nat) :
    ∀ n, '\n' ∉ natDigitsAux fuel n := by
  induction fuel with
  | zero => intro n; simp [natDigitsAux]
  | succ fuel ih =>
    intro n
    simp only [natDigitsAux]
    split
    · simp
    · intro h
      rcases List.mem_append.1 h with h | h
      · exact ih _ h
      · exact digitChar_ne_newline _ (List.mem_singleton.1 h).symm

theorem natRepr_no_newline (n : Nat) : '\n' ∉ (natRepr n).data := by
  unfold natRepr
  split
  · decide
  · exact natDigitsAux_no_newline n n

theorem intRepr_no_newline (n : Int) : '\n' ∉ (intRepr n).data := by
  cases n with
  | ofNat m => exact natRepr_no_newline m
  | negSucc m =>
    exact nlFree_append "-" _ (by decide) (natRepr_no_newline (m + 1))

theorem ok_bind {α β : Type} (a : α) (f : α → Except String β) :
    (do let x ← Except.ok a; f x) = f a := rfl

theorem hex4_no_newline (n : Nat) : '\n' ∉ (hex4 n).data := by
  intro h
  rcases List.mem_cons.1 h with h1 | h
  · exact digitChar_ne_newline _ h1.symm
  rcases List.mem_cons.1 h with h1 | h
  · exact digitChar_ne_newline _ h1.symm
  rcases List.mem_cons.1 h with h1 | h
  · exact digitChar_ne_newline _ h1.symm
  rcases List.mem_cons.1 h with h1 | h
  · exact digitChar_ne_newline _ h1.symm
  · cases h

theorem uEscape_no_newline (n : Nat) : '\n' ∉ (uEscape n).data := by
  unfold uEscape
  split
  · exact nlFree_append "\\u" _ (by decide) (hex4_no_newline n)
  · exact nlFree_append _ _
      (nlFree_append _ _
        (nlFree_append "\\u" _ (by decide) (hex4_no_newline _))
        (by decide))
      (hex4_no_newline _)

theorem escapeChar_no_newline (c : Char) : '\n' ∉ (escapeChar c).data := by
  unfold escapeChar
  split_ifs with h1 h2 h3 h4 h5 h6 h7 h8
  · decide
  · decide
  · decide
  · decide
  · decide
  · decide
  · decide
  · exact uEscape_no_newline c.toNat
  · intro hm
    exact h3 (List.mem_singleton.1 hm).symm

theorem escapeList_no_newline : ∀ cs : List Char, '\n' ∉ (escapeList cs).data
  | [] => by simp [escapeList]
  | c :: cs =>
    nlFree_append _ _ (escapeChar_no_newline c) (escapeList_no_newline cs)

theorem escapeString_no_newline (s : String) :
    '\n' ∉ (escapeString s).data :=
  escapeList_no_newline s.data

theorem joinSep_no_newline (sep : String) (hsep : '\n' ∉ sep.data)
    (parts : List String) (h : ∀ p ∈ parts, '\n' ∉ p.data) :
    '\n' ∉ (joinSep sep parts).data := by
  induction parts with
  | nil => simp [joinSep]
  | cons s rest ih =>
    cases rest with
    | nil => simpa [joinSep] using h s (List.mem_cons_self s [])
    | cons t rest2 =>
      have h1 : '\n' ∉ s.data := h s (List.mem_cons_self s _)
      have h2 := ih (fun p hp => h p (List.mem_cons_of_mem s hp))
      show '\n' ∉ ((s ++ sep) ++ joinSep sep (t :: rest2)).data
      exact nlFree_append _ _ (nlFree_append _ _ h1 hsep) h2

mutual

theorem json_dumps_single_line : ∀ d : PyVal, d.serializable = true →
    ∃ j, json_dumps d = Except.ok j ∧ '\n' ∉ j.data
  | .none, _ => ⟨"null", rfl, by decide⟩
  | .bool true, _ => ⟨"true", rfl, by decide⟩
  | .bool false, _ => ⟨"false", rfl, by decide⟩
  | .int n, _ => ⟨intRepr n, rfl, intRepr_no_newline n⟩
  | .str s, _ =>
    ⟨"\"" ++ escapeString s ++ "\"", rfl,
      nlFree_append _ _
        (nlFree_append "\"" _ (by decide) (escapeString_no_newline s))
        (by decide)⟩
  | .list xs, h => by
    obtain ⟨js, hjs, hnl⟩ := json_dumps_list_single_line xs h
    refine ⟨"[" ++ joinSep ", " js ++ "]", ?_, ?_⟩
    · simp [json_dumps, hjs]
    · exact nlFree_append _ _
        (nlFree_append "[" _ (by decide)
          (joinSep_no_newline ", " (by decide) js hnl))
        (by decide)
  | .dict kvs, h => by
    obtain ⟨js, hjs, hnl⟩ := json_dumps_dict_single_line kvs h
    refine ⟨"\x7b" ++ joinSep ", " js ++ "\x7d", ?_, ?_⟩
    · simp [json_dumps, hjs]
    · exact nlFree_append _ _
        (nlFree_append "\x7b" _ (by decide)
          (joinSep_no_newline ", " (by decide) js hnl))
        (by decide)
  | .obj, h => Bool.noConfusion h

theorem json_dumps_list_single_line : ∀ xs : PyList,
    xs.serializable = true →
    ∃ js, json_dumps_list xs = Except.ok js ∧ ∀ j ∈ js, '\n' ∉ j.data
  | .nil, _ => ⟨[], rfl, by simp⟩
  | .cons hd tl, h => by
    have h1 : hd.serializable = true := by
      have := h
      simp [PyList.serializable, Bool.and_eq_true] at this
      exact this.1
    have h2 : tl.serializable = true := by
      have := h
      simp [PyList.serializable, Bool.and_eq_true] at this
      exact this.2
    obtain ⟨j, hj, hnlj⟩ := json_dumps_single_line hd h1
    obtain ⟨js, hjs, hnljs⟩ := json_dumps_list_single_line tl h2
    refine ⟨j :: js, ?_, ?_⟩
    · simp [json_dumps_list, hj, hjs, ok_bind]
    · intro p hp
      rcases List.mem_cons.1 hp with rfl | hp
      · exact hnlj
      · exact hnljs p hp

theorem json_dumps_dict_single_line : ∀ kvs : PyDict,
    kvs.serializable = true →
    ∃ js, json_dumps_dict kvs = Except.ok js ∧ ∀ j ∈ js, '\n' ∉ j.data
  | .nil, _ => ⟨[], rfl, by simp⟩
  | .cons k v tl, h => by
    have h1 : v.serializable = true := by
      have := h
      simp [PyDict.serializable, Bool.and_eq_true] at this
      exact this.1
    have h2 : tl.serializable = true := by
      have := h
      simp [PyDict.serializable, Bool.and_eq_true] at this
      exact this.2
    obtain ⟨j, hj, hnlj⟩ := json_dumps_single_line v h1
    obtain ⟨js, hjs, hnljs⟩ := json_dumps_dict_single_line tl h2
    refine ⟨("\"" ++ escapeString k ++ "\": " ++ j) :: js, ?_, ?_⟩
    · simp [json_dumps_dict, hj, hjs, ok_bind]
    · intro p hp
      rcases List.mem_cons.1 hp with rfl | hp
      · exact nlFree_append _ _
          (nlFree_append _ _
            (nlFree_append "\"" _ (by decide) (escapeString_no_newline k))
            (by decide))
          hnlj
      · exact hnljs p hp

end

/-- C7 counterexample: `format_sse` is not total on payload
dictionaries. On the payload whose single value is a non-JSON-
serializable object, the embedded `json.dumps` raises `TypeError`
(modelled as `Except.error`) and the exception propagates out of
`format_sse`: the payload is rejected, not serialized best-effort. -/
theorem format_sse_rejects_unserializable :
    SSEService.format_sse (PyVal.dict (.cons "x" .obj .nil)) "message" =
      Except.error "Object of type object is not JSON serializable" := rfl

/-- C7 (amended): for every JSON-serializable payload dictionary and
every channel label, `format_sse` returns, without raising, the
self-terminating UTF-8 frame
`"event: " ++ channel ++ "\n" ++ "data: " ++ j ++ "\n" ++ "\n"` where
`j`, the `json.dumps` serialization of the payload, contains no newline
(single-line JSON). Payloads containing a non-serializable object are
instead rejected with a `TypeError` from `json.dumps`. -/
theorem format_sse_frame (d : PyVal) (e : String)
    (h : d.serializable = true) :
    ∃ j, json_dumps d = Except.ok j ∧ '\n' ∉ j.data ∧
      SSEService.format_sse d e =
        Except.ok ("event: " ++ e ++ "\n" ++ "data: " ++ j ++ "\n" ++ "\n") := by
  obtain ⟨j, hj, hnl⟩ := json_dumps_single_line d h
  exact ⟨j, hj, hnl, by simp [SSEService.format_sse, hj]⟩

/-- Witness for the amended C7: the frame of a `text-delta` payload on
channel `"message"`. -/
theorem format_sse_frame_witness :
    SSEService.format_sse (eventPayload (StreamEvent.textDelta "Hel"))
        "message" =
      Except.ok ("event: " ++ "message" ++ "\n" ++ "data: " ++
        "\x7b\"type\": \"text-delta\", \"content\": \"Hel\"\x7d" ++
        "\n" ++ "\n") := by
  obtain ⟨j, hj, -, hf⟩ :=
    format_sse_frame (eventPayload (StreamEvent.textDelta "Hel")) "message" rfl
  have hj2 : json_dumps (eventPayload (StreamEvent.textDelta "Hel")) =
      Except.ok "\x7b\"type\": \"text-delta\", \"content\": \"Hel\"\x7d" := rfl
  injection (hj.symm.trans hj2) with hjj
  rw [← hjj]
  exact hf

end AetherAI
